import Mathlib

/-!
Shallow embedding of the weather-consumer ingestion pipeline
(`app/consumer/consumer.py`): message validation, the per-message
processing/acknowledgment flow, the shutdown path, and the bounded
connection-retry loops.  Python values are modelled as follows:
JSON values as an inductive `Json` with numbers as rationals, Python
exceptions as the inductive `PyError`, `datetime` objects as `PyDatetime`,
and the external world (store reachability, reconnection success, the
byte-level decode class of a message body) as explicit parameters.
-/

/-- Model of a parsed JSON value as produced by `json.loads`.  A Python
`bool` is kept distinct from numbers because `isinstance(b, (int, float))`
is `True` for booleans, which the validator's type check relies on. -/
inductive Json where
  | null
  | bool (b : Bool)
  | num (q : ℚ)
  | str (s : String)
  | arr (elems : List Json)
  | obj (fields : List (String × Json))

/-- Model of the Python exceptions that can arise inside
`_process_message` and `_validate_message`.  Validation `ValueError`s are
split by the message they carry so theorems can talk about which defect
was reported. -/
inductive PyError where
  /-- `json.JSONDecodeError` from `json.loads` on undecodable JSON text. -/
  | jsonDecodeError
  /-- `UnicodeDecodeError` (a `ValueError`) from decoding non-UTF-8 bytes. -/
  | unicodeDecodeError
  /-- `ValueError("Campos obligatorios faltantes: ...")`, carrying the
  missing required fields that the joined message names. -/
  | schemaError (missing : List String)
  /-- `ValueError("<field> debe ser numérica")`. -/
  | numericTypeError (field : String)
  /-- `ValueError("<field> fuera de rango: <reported>")`, carrying the
  value the f-string actually read. -/
  | rangeError (field : String) (reported : Json)
  /-- `ValueError("Formato de timestamp inválido, usar ISO 8601")`. -/
  | formatError
  /-- `KeyError(<key>)` from a dict subscript on a missing key. -/
  | keyError (key : String)
  /-- `AttributeError` from calling a method absent on the receiver. -/
  | attributeError (attr : String)
  /-- `psycopg2.OperationalError`: the store connection is down. -/
  | operationalError
  /-- `psycopg2.ProgrammingError` (e.g. `UndefinedColumn`) from a bad
  SQL statement; not an `OperationalError`. -/
  | programmingError
  /-- `RuntimeError` raised when a retry loop exhausts its attempts. -/
  | runtimeError

/-- The Python `except ValueError` clause catches exactly these errors
(`JSONDecodeError` and `UnicodeDecodeError` are `ValueError` subclasses;
the four validator errors are raised as `ValueError` directly). -/
def PyError.isValueError : PyError → Bool
  | .jsonDecodeError => true
  | .unicodeDecodeError => true
  | .schemaError _ => true
  | .numericTypeError _ => true
  | .rangeError _ _ => true
  | .formatError => true
  | _ => false

/-- Model of a Python `datetime` as produced by `datetime.fromisoformat`:
calendar fields plus an optional UTC offset in seconds (`none` means the
datetime is timezone-naive). -/
structure PyDatetime where
  year : Nat
  month : Nat
  day : Nat
  hour : Nat
  minute : Nat
  second : Nat
  microsecond : Nat
  tzoffset : Option Int
deriving DecidableEq, Repr

/-- Gregorian leap-year test, as used by `datetime`'s day validation. -/
def isLeap (y : Nat) : Bool :=
  (y % 4 == 0 && y % 100 != 0) || y % 400 == 0

/-- Number of days in a month, for `datetime`'s day-of-month validation. -/
def daysInMonth (y m : Nat) : Nat :=
  if m == 2 then (if isLeap y then 29 else 28)
  else if m == 4 || m == 6 || m == 9 || m == 11 then 30
  else 31

/-- Value of a decimal digit character, `none` on a non-digit. -/
def digitVal (c : Char) : Option Nat :=
  if c.isDigit then some (c.toNat - 48) else none

/-- Two decimal digits as a number. -/
def d2 (a b : Char) : Option Nat := do
  let x ← digitVal a
  let y ← digitVal b
  pure (x * 10 + y)

/-- Four decimal digits as a number. -/
def d4 (a b c d : Char) : Option Nat := do
  let x ← d2 a b
  let y ← d2 c d
  pure (x * 100 + y)

/-- Modelled from the documented behaviour of CPython
`datetime.fromisoformat` (pre-3.11), which the consumer calls: the first
ten characters must be a valid `YYYY-MM-DD` date. -/
def parseDate : List Char → Option (Nat × Nat × Nat)
  | [y1, y2, y3, y4, s1, m1, m2, s2, e1, e2] =>
    if s1 = '-' && s2 = '-' then do
      let y ← d4 y1 y2 y3 y4
      let m ← d2 m1 m2
      let d ← d2 e1 e2
      if 1 ≤ y && 1 ≤ m && m ≤ 12 && 1 ≤ d && d ≤ daysInMonth y m then
        pure (y, m, d)
      else none
    else none
  | _ => none

/-- Fractional-second part: exactly three or six digits after the dot,
returned in microseconds. -/
def parseFrac : List Char → Option Nat
  | [a, b, c] => do
    let v ← d2 a b
    let w ← digitVal c
    pure ((v * 10 + w) * 1000)
  | [a, b, c, d, e, f] => do
    let v ← d2 a b
    let w ← d2 c d
    let x ← d2 e f
    pure (v * 10000 + w * 100 + x)
  | _ => none

/-- Time-of-day components `HH[:MM[:SS[.fff[fff]]]]` as hour, minute,
second and microsecond, following `fromisoformat`'s fixed shapes. -/
def parseHMSF : List Char → Option (Nat × Nat × Nat × Nat)
  | [h1, h2] => do
    let h ← d2 h1 h2
    pure (h, 0, 0, 0)
  | [h1, h2, ':', m1, m2] => do
    let h ← d2 h1 h2
    let m ← d2 m1 m2
    pure (h, m, 0, 0)
  | [h1, h2, ':', m1, m2, ':', s1, s2] => do
    let h ← d2 h1 h2
    let m ← d2 m1 m2
    let s ← d2 s1 s2
    pure (h, m, s, 0)
  | h1 :: h2 :: ':' :: m1 :: m2 :: ':' :: s1 :: s2 :: '.' :: rest => do
    let h ← d2 h1 h2
    let m ← d2 m1 m2
    let s ← d2 s1 s2
    let us ← parseFrac rest
    pure (h, m, s, us)
  | _ => none

/-- Split a time string at the first `+` or `-`, which `fromisoformat`
treats as the start of the UTC-offset part; the Bool records whether the
sign was `-`. -/
def splitAtSign : List Char → List Char × Option (Bool × List Char)
  | [] => ([], none)
  | c :: rest =>
    if c = '+' || c = '-' then ([], some (c = '-', rest))
    else
      let (pre, tz) := splitAtSign rest
      (c :: pre, tz)

/-- Parse the time-and-offset part of an ISO string: time of day plus an
optional `±HH:MM[:SS[.ffffff]]` offset (offset in seconds, negated for a
leading minus), validating component ranges as `datetime`/`timezone`
construction does. -/
def parseTime (cs : List Char) : Option (Nat × Nat × Nat × Nat × Option Int) := do
  let (tpart, tzpart) := splitAtSign cs
  let (h, m, s, us) ← parseHMSF tpart
  if h ≤ 23 && m ≤ 59 && s ≤ 59 then
    match tzpart with
    | none => pure (h, m, s, us, none)
    | some (neg, tzcs) =>
      if tzcs.length = 5 || tzcs.length = 8 || tzcs.length = 15 then do
        let (th, tm, ts, _) ← parseHMSF tzcs
        if th ≤ 23 && tm ≤ 59 && ts ≤ 59 then
          let off : Int := th * 3600 + tm * 60 + ts
          pure (h, m, s, us, some (if neg then -off else off))
        else none
      else none
  else none

/-- Modelled from the documented behaviour of CPython
`datetime.fromisoformat` (pre-3.11, the variant for which the consumer's
`replace('Z', '+00:00')` workaround is needed): a ten-character date,
optionally followed by one separator character and a time with optional
UTC offset.  Returns `none` where Python raises `ValueError`. -/
def fromisoformat (cs : List Char) : Option PyDatetime :=
  match parseDate (cs.take 10) with
  | none => none
  | some (y, mo, d) =>
    match cs.drop 10 with
    | [] => some ⟨y, mo, d, 0, 0, 0, 0, none⟩
    | _sep :: timeCs =>
      match parseTime timeCs with
      | some (h, mi, s, us, tz) => some ⟨y, mo, d, h, mi, s, us, tz⟩
      | none => none

/-- Model of `s.replace('Z', '+00:00')` on the timestamp string: every
occurrence of the character `Z` becomes `+00:00`. -/
def replaceZ : List Char → List Char
  | [] => []
  | 'Z' :: rest => '+' :: '0' :: '0' :: ':' :: '0' :: '0' :: replaceZ rest
  | c :: rest => c :: replaceZ rest

/-- Last-binding-wins lookup, matching how `json.loads` builds a Python
dict (a later duplicate key overrides an earlier one). -/
def lookupLast (fields : List (String × Json)) (k : String) : Option Json :=
  fields.foldl (fun acc p => if p.1 = k then some p.2 else acc) none

/-- Model of `data.keys()`: the keys of a dict, or `AttributeError` when
the parsed JSON value is not an object (list/str/int/float/bool/None have
no `keys` method). -/
def Json.keysOf : Json → Except PyError (List String)
  | .obj fields => .ok (fields.map Prod.fst)
  | _ => .error (.attributeError "keys")

/-- Model of the dict subscript `data[k]`: `KeyError` when absent. -/
def Json.getItem : Json → String → Except PyError Json
  | .obj fields, k =>
    match lookupLast fields k with
    | some v => .ok v
    | none => .error (.keyError k)
  | _, k => .error (.keyError k)

/-- Model of `isinstance(v, (int, float))`.  A Python `bool` is an
instance of `int`, so booleans count as numeric. -/
def Json.isNumeric : Json → Bool
  | .num _ => true
  | .bool _ => true
  | _ => false

/-- Numeric value of a JSON number under Python comparison semantics
(`True == 1`, `False == 0`); zero on non-numeric values, which the
validator never compares. -/
def Json.toRat : Json → ℚ
  | .num q => q
  | .bool b => if b then 1 else 0
  | _ => 0

/-- Whether the parsed JSON value is a Python dict. -/
def Json.isObj : Json → Bool
  | .obj _ => true
  | _ => false

/-- The `required_fields` set of `_validate_message`. -/
def required_fields : List String := ["timestamp", "temperatura", "humedad"]

/-- The set difference `required_fields - data.keys()` of
`_validate_message`, as the list of required fields absent from the
keys. -/
def missing_fields (ks : List String) : List String :=
  required_fields.filter (fun f => ! ks.contains f)

/-- Embedding of `WeatherConsumer._validate_message` (consumer.py
123-152), step for step: required-field presence (the error carries every
missing field, as `', '.join(missing)` does), numeric type checks on
`temperatura` and `humedad`, inclusive range checks (whose error
f-strings read `data['temperature']` and `data['humidity']`, the English
keys), and timestamp parsing via
`datetime.fromisoformat(data['timestamp'].replace('Z', '+00:00'))`. -/
def validate_message (data : Json) : Except PyError Unit := do
  let ks ← data.keysOf
  let missing := missing_fields ks
  if missing ≠ [] then
    throw (.schemaError missing)
  let t ← data.getItem "temperatura"
  if ¬ t.isNumeric then
    throw (.numericTypeError "Temperatura")
  let h ← data.getItem "humedad"
  if ¬ h.isNumeric then
    throw (.numericTypeError "Humedad")
  if ¬ ((-50 : ℚ) ≤ t.toRat ∧ t.toRat ≤ 60) then do
    let reported ← data.getItem "temperature"
    throw (.rangeError "Temperatura" reported)
  if ¬ ((0 : ℚ) ≤ h.toRat ∧ h.toRat ≤ 100) then do
    let reported ← data.getItem "humidity"
    throw (.rangeError "Humedad" reported)
  let ts ← data.getItem "timestamp"
  match ts with
  | .str s =>
    match fromisoformat (replaceZ s.toList) with
    | some _ => pure ()
    | none => throw .formatError
  | _ => throw (.attributeError "replace")

/-- A row bound into the `INSERT` statement: the values
`(timestamp, data['temperatura'], data['humedad'])` of
`_process_message`. -/
structure StoreRecord where
  timestamp : PyDatetime
  temperature : ℚ
  humidity : ℚ
deriving DecidableEq

/-- Columns of the `weather_logs` table as created by
`_setup_postgres` (consumer.py 107-121). -/
def weather_logs_columns : List String :=
  ["id", "timestamp", "temperature", "humidity", "created_at"]

/-- Columns named by the `INSERT INTO weather_logs` statement of
`_process_message` (consumer.py 163-167). -/
def insert_columns : List String := ["timestamp", "temperatura", "humedad"]

/-- The validate-and-convert front half of `_process_message`'s try
block: validate the parsed object, then recompute
`datetime.fromisoformat(data['timestamp'].replace('Z', '+00:00'))` and
read the two values bound into the insert. -/
def reading_of (data : Json) : Except PyError StoreRecord := do
  validate_message data
  let tsj ← data.getItem "timestamp"
  let ts ← match tsj with
    | .str s =>
      match fromisoformat (replaceZ s.toList) with
      | some dt => pure dt
      | none => throw .formatError
    | _ => throw (.attributeError "replace")
  let t ← data.getItem "temperatura"
  let h ← data.getItem "humedad"
  pure ⟨ts, t.toRat, h.toRat⟩

/-- Model of `cursor.execute(INSERT ...)` against the schema
`_setup_postgres` created: an unreachable store raises
`OperationalError`; otherwise the statement is checked against the
table's columns, and a column named by the insert but absent from the
table raises `ProgrammingError` (`UndefinedColumn`). -/
def execute_insert (storeUp : Bool) (r : StoreRecord) : Except PyError StoreRecord :=
  if ¬ storeUp then .error .operationalError
  else if insert_columns.all (fun c => weather_logs_columns.contains c) then .ok r
  else .error .programmingError

/-- Terminal acknowledgment action for one message. -/
inductive Outcome where
  | acked
  | nackRequeue
  | nackDiscard
deriving DecidableEq, Repr

/-- Observable result of one `_process_message` call that returned
normally: the terminal ack action, the rows inserted into
`weather_logs`, and how many reconnect-and-reinitialize cycles
(`_reconnect_postgres`, i.e. `_connect_postgres_with_retry` followed by
`_setup_postgres`) ran. -/
structure ProcessResult where
  outcome : Outcome
  inserted : List StoreRecord
  reconnects : Nat
deriving DecidableEq

/-- Byte-level decode class of a delivered message body, the aspects of
the raw bytes that `_process_message` can observe through `json.loads`
and `body.decode()`. -/
inductive BodyDecode where
  /-- Bytes that are not valid UTF-8 (e.g. the single byte 0xFF). -/
  | notUtf8
  /-- Valid UTF-8 text that is not valid JSON. -/
  | utf8NotJson (s : String)
  /-- Valid UTF-8 text that parses as the JSON value `j`. -/
  | json (j : Json)

/-- Model of `json.loads(body)`: non-UTF-8 bytes raise
`UnicodeDecodeError` (a `ValueError`, not a `JSONDecodeError`) from the
internal decode step; undecodable JSON text raises `JSONDecodeError`. -/
def json_loads : BodyDecode → Except PyError Json
  | .notUtf8 => .error .unicodeDecodeError
  | .utf8NotJson _ => .error .jsonDecodeError
  | .json j => .ok j

/-- Model of `body.decode()` as called inside the error handlers' log
statements: raises `UnicodeDecodeError` on non-UTF-8 bytes. -/
def body_decode : BodyDecode → Except PyError String
  | .notUtf8 => .error .unicodeDecodeError
  | .utf8NotJson s => .ok s
  | .json _ => .ok ""

/-- The try block of `_process_message` (consumer.py 156-172):
`json.loads`, `_validate_message`, timestamp conversion, insert, commit,
`basic_ack`. -/
def try_process (body : BodyDecode) (storeUp : Bool) : Except PyError ProcessResult := do
  let data ← json_loads body
  let reading ← reading_of data
  let row ← execute_insert storeUp reading
  pure ⟨.acked, [row], 0⟩

/-- Embedding of `WeatherConsumer._process_message` (consumer.py
154-190).  The except clauses are dispatched in source order:
`json.JSONDecodeError`, then `ValueError` (both handlers log
`body.decode()`, which can itself raise and escape), then
`psycopg2.OperationalError` (runs `_reconnect_postgres`, whose own
failure — retry exhaustion `RuntimeError` — escapes, and on success nacks
with requeue), then `Exception` (nack without requeue).  `storeUp` is
whether the store connection works at insert time; `reconnectOk` is
whether `_reconnect_postgres` would succeed.  A `.error` result is an
exception escaping `_process_message`. -/
def process_message (body : BodyDecode) (storeUp reconnectOk : Bool) :
    Except PyError ProcessResult :=
  match try_process body storeUp with
  | .ok r => .ok r
  | .error .jsonDecodeError =>
    match body_decode body with
    | .ok _ => .ok ⟨.nackDiscard, [], 0⟩
    | .error e2 => .error e2
  | .error .operationalError =>
    if reconnectOk then .ok ⟨.nackRequeue, [], 1⟩
    else .error .runtimeError
  | .error e =>
    if e.isValueError then
      match body_decode body with
      | .ok _ => .ok ⟨.nackDiscard, [], 0⟩
      | .error e2 => .error e2
    else .ok ⟨.nackDiscard, [], 0⟩

/-- The three resources `stop` closes, in source order. -/
inductive Conn where
  | chan
  | rabbit
  | pg
deriving DecidableEq, Repr

/-- Run the close calls of `stop`'s single try block in order, stopping
at the first close that raises; returns the closes attempted and whether
the block completed without an exception. -/
def close_seq (fails : Conn → Bool) : List Conn → List Conn × Bool
  | [] => ([], true)
  | c :: rest =>
    if fails c then ([c], false)
    else
      let (done, completed) := close_seq fails rest
      (c :: done, completed)

/-- Embedding of `WeatherConsumer.stop` (consumer.py 216-224): one try
block containing `self.channel.close()`, `self.rabbit_conn.close()`,
`self.pg_conn.close()` in that order, with a single
`except Exception` that logs and swallows.  `fails c` says whether
closing resource `c` would raise.  Returns the closes attempted and
whether `stop` itself raised (always `false`: the handler swallows). -/
def stop (fails : Conn → Bool) : List Conn × Bool :=
  let (attempted, _completed) := close_seq fails [Conn.chan, Conn.rabbit, Conn.pg]
  (attempted, false)

/-- Trace of one `_connect_*_with_retry` call: `result = some k` means
the connection succeeded on attempt `k`; `none` means the loop finished
and `RuntimeError` was raised.  `attempts` counts connection attempts,
`sleeps` counts `time.sleep(delay)` calls. -/
structure RetryTrace where
  result : Option Nat
  attempts : Nat
  sleeps : Nat
deriving DecidableEq, Repr

/-- The body of `for attempt in range(1, max_retries + 1)` in
`_connect_postgres_with_retry` / `_connect_rabbitmq_with_retry`:
`succeeds attempt` says whether the connection call on that attempt
succeeds; on failure the loop sleeps only when `attempt < max_retries`.
`remaining` is the number of loop iterations left. -/
def retry_from (succeeds : Nat → Bool) (max_retries : Nat) :
    Nat → Nat → RetryTrace
  | 0, _ => ⟨none, 0, 0⟩
  | n + 1, attempt =>
    if succeeds attempt then ⟨some attempt, 1, 0⟩
    else
      let tr := retry_from succeeds max_retries n (attempt + 1)
      ⟨tr.result, tr.attempts + 1,
       tr.sleeps + (if attempt < max_retries then 1 else 0)⟩

/-- Default `max_retries` of both retry-connect methods. -/
def default_max_retries : Nat := 5

/-- Default `delay` (seconds slept per `time.sleep` call) of both
retry-connect methods. -/
def default_delay : Nat := 5

/-- Embedding of the retry loops of `_connect_postgres_with_retry`
(consumer.py 28-46) and `_connect_rabbitmq_with_retry` (consumer.py
48-73), which share this exact structure: attempts run from 1 to
`max_retries`; a success returns the connection immediately; after a
failed attempt the loop sleeps `delay` only if `attempt < max_retries`;
exhausting the loop raises `RuntimeError`. -/
def connect_with_retry (succeeds : Nat → Bool) (max_retries : Nat) : RetryTrace :=
  retry_from succeeds max_retries max_retries 1

/-- `_connect_postgres_with_retry`, as an instance of the shared loop. -/
def connect_postgres_with_retry (succeeds : Nat → Bool) (max_retries : Nat) :
    RetryTrace :=
  connect_with_retry succeeds max_retries

/-- `_connect_rabbitmq_with_retry`, as an instance of the shared loop. -/
def connect_rabbitmq_with_retry (succeeds : Nat → Bool) (max_retries : Nat) :
    RetryTrace :=
  connect_with_retry succeeds max_retries

/-- Scenario A input of the spec:
`{"timestamp":"2024-01-01T12:00:00Z","temperatura":25.5,"humedad":60.2}`
(25.5 = 51/2, 60.2 = 301/5). -/
def scenarioA : Json := .obj
  [("timestamp", .str "2024-01-01T12:00:00Z"),
   ("temperatura", .num (mkRat 51 2)),
   ("humedad", .num (mkRat 301 5))]

/-- Scenario C input of the spec: `temperatura: 999`, other fields
well-formed. -/
def scenarioC : Json := .obj
  [("timestamp", .str "2024-01-01T12:00:00Z"),
   ("temperatura", .num 999),
   ("humedad", .num 50)]

/-- Scenario B input of the spec: the `humedad` field is missing. -/
def scenarioB : Json := .obj
  [("timestamp", .str "2024-01-01T12:00:00Z"),
   ("temperatura", .num (mkRat 51 2))]

/-- A message whose timestamp is timezone-naive (no offset and no "Z"),
with both numeric fields in range. -/
def naiveTimestampMsg : Json := .obj
  [("timestamp", .str "2024-01-01T12:00:00"),
   ("temperatura", .num (mkRat 51 2)),
   ("humedad", .num (mkRat 301 5))]

/-- A reading sitting exactly on the accepted boundaries: temperature
-50, humidity 100. -/
def boundaryMsg : Json := .obj
  [("timestamp", .str "2024-01-01T12:00:00Z"),
   ("temperatura", .num (-50)),
   ("humedad", .num 100)]

/-- Bind on `Except` after a success. -/
theorem eb_ok {ε α β : Type} (a : α) (f : α → Except ε β) :
    ((Except.ok a : Except ε α) >>= f) = f a := rfl

/-- Bind on `Except` after an error. -/
theorem eb_err {ε α β : Type} (e : ε) (f : α → Except ε β) :
    ((Except.error e : Except ε α) >>= f) = Except.error e := rfl

/-- `throw` on `Except` is `Except.error`. -/
theorem ethrow {ε α : Type} (e : ε) : (throw e : Except ε α) = .error e := rfl

/-- `pure` on `Except` is `Except.ok`. -/
theorem epure {ε α : Type} (a : α) : (pure a : Except ε α) = .ok a := rfl

/-- On a value that is not a dict, validation dies at `data.keys()`. -/
theorem validate_message_nonobj (data : Json) (h : data.isObj = false) :
    validate_message data = .error (.attributeError "keys") := by
  cases data with
  | obj fields => simp [Json.isObj] at h
  | null => rfl
  | bool b => rfl
  | num q => rfl
  | str s => rfl
  | arr elems => rfl

/-- C1: the Scenario A input passes validation, but the `INSERT` names
the columns `temperatura`/`humedad` while `_setup_postgres` created the
table with `temperature`/`humidity`, so the insert raises
`ProgrammingError`, the generic `except Exception` handler runs, and the
message is nacked without requeue: no row is inserted and the message is
never acknowledged. -/
theorem scenarioA_insert_column_mismatch :
    validate_message scenarioA = .ok () ∧
    insert_columns.all (fun c => weather_logs_columns.contains c) = false ∧
    process_message (.json scenarioA) true true = .ok ⟨.nackDiscard, [], 0⟩ :=
  ⟨rfl, rfl, rfl⟩

/-- C2: on `temperatura: 999` the range check fires, but the error
f-string reads `data['temperature']` (an absent English key), so
validation raises `KeyError`, not a `ValueError` naming the field and
value; the `KeyError` is not caught by the `except ValueError` clause and
the message is still nacked without requeue by the generic handler. -/
theorem scenarioC_range_check_raises_keyError :
    validate_message scenarioC = .error (.keyError "temperature") ∧
    (PyError.keyError "temperature").isValueError = false ∧
    process_message (.json scenarioC) true true = .ok ⟨.nackDiscard, [], 0⟩ :=
  ⟨rfl, rfl, rfl⟩

/-- C3 counterexample: when closing the channel raises, `stop` attempts
no further close — the broker and store connections are never released,
refuting the claim that every release attempt is made independently. -/
theorem stop_skips_later_closes_on_failure :
    (stop (fun c => decide (c = Conn.chan))).1 = [Conn.chan] ∧
    Conn.rabbit ∉ (stop (fun c => decide (c = Conn.chan))).1 ∧
    Conn.pg ∉ (stop (fun c => decide (c = Conn.chan))).1 := by
  refine ⟨rfl, ?_, ?_⟩ <;> decide

/-- C3 amended: `stop` attempts the closes in the order channel, broker
connection, store connection inside a single try block; every close
after the first failing one is skipped, and the error is swallowed (so
`stop` itself never raises).  All three closes are attempted exactly
when neither the channel close nor the broker-connection close fails —
a failure of the store-connection close, being last, skips nothing. -/
theorem stop_single_handler_teardown (fails : Conn → Bool) :
    (stop fails).2 = false ∧
    ((fails .chan = true ∧ (stop fails).1 = [Conn.chan]) ∨
     (fails .chan = false ∧ fails .rabbit = true ∧
        (stop fails).1 = [Conn.chan, Conn.rabbit]) ∨
     (fails .chan = false ∧ fails .rabbit = false ∧
        (stop fails).1 = [Conn.chan, Conn.rabbit, Conn.pg])) := by
  refine ⟨rfl, ?_⟩
  cases h1 : fails .chan with
  | true => exact Or.inl ⟨rfl, by simp [stop, close_seq, h1]⟩
  | false =>
    cases h2 : fails .rabbit with
    | true => exact Or.inr (Or.inl ⟨rfl, rfl, by simp [stop, close_seq, h1, h2]⟩)
    | false =>
      cases h3 : fails .pg with
      | true =>
        exact Or.inr (Or.inr ⟨rfl, rfl, by simp [stop, close_seq, h1, h2, h3]⟩)
      | false =>
        exact Or.inr (Or.inr ⟨rfl, rfl, by simp [stop, close_seq, h1, h2, h3]⟩)

/-- C4: a non-UTF-8 body makes `json.loads` raise `UnicodeDecodeError`
(a `ValueError`), and the `except ValueError` handler's own
`body.decode()` raises again, so the error escapes `_process_message`
with no nack at all; UTF-8 text that is not JSON does reach the
`JSONDecodeError` handler and is nacked without requeue. -/
theorem nonutf8_body_error_escapes :
    process_message .notUtf8 true true = .error .unicodeDecodeError ∧
    ∀ s, process_message (.utf8NotJson s) true true = .ok ⟨.nackDiscard, [], 0⟩ :=
  ⟨rfl, fun _ => rfl⟩

/-- C5 counterexample: the timezone-naive timestamp
`2024-01-01T12:00:00` parses with no UTC offset, and validation accepts
the message, refuting the claim that no timezone-naive timestamp is
accepted. -/
theorem naive_timestamp_accepted :
    fromisoformat (replaceZ "2024-01-01T12:00:00".toList) =
      some ⟨2024, 1, 1, 12, 0, 0, 0, none⟩ ∧
    validate_message naiveTimestampMsg = .ok () :=
  ⟨rfl, rfl⟩

/-- C10: a JSON body that is not an object fails at `data.keys()` with
`AttributeError` — not a `SchemaError`, and not any `ValueError` — so it
falls to the generic `except Exception` branch: the message is nacked
without requeue, nothing is inserted, and it is never acknowledged. -/
theorem nonobject_json_discarded (j : Json) (hj : j.isObj = false)
    (storeUp reconnectOk : Bool) :
    process_message (.json j) storeUp reconnectOk = .ok ⟨.nackDiscard, [], 0⟩ ∧
    validate_message j = .error (.attributeError "keys") ∧
    (PyError.attributeError "keys").isValueError = false := by
  have hv := validate_message_nonobj j hj
  have htry : try_process (.json j) storeUp = .error (.attributeError "keys") := by
    simp [try_process, json_loads, reading_of, hv, eb_ok, eb_err]
  refine ⟨?_, hv, rfl⟩
  unfold process_message
  rw [htry]
  rfl

/-- Witness for C10 at the JSON array `[]`. -/
theorem nonobject_json_discarded_witness :
    (Json.arr []).isObj = false ∧
    (process_message (.json (.arr [])) true true = .ok ⟨.nackDiscard, [], 0⟩ ∧
     validate_message (.arr []) = .error (.attributeError "keys") ∧
     (PyError.attributeError "keys").isValueError = false) :=
  ⟨rfl, nonobject_json_discarded (.arr []) rfl true true⟩

/-- A successful left fold of the last-wins lookup means the key occurs
in the list or was already in the accumulator. -/
theorem lookup_step (k : String) (acc : Option Json) (v : Json)
    (fs : List (String × Json))
    (h : fs.foldl (fun acc p => if p.1 = k then some p.2 else acc) acc = some v) :
    k ∈ fs.map Prod.fst ∨ acc = some v := by
  induction fs generalizing acc with
  | nil => exact Or.inr h
  | cons p rest ih =>
    rcases ih _ h with hm | hacc
    · exact Or.inl (List.mem_cons_of_mem _ hm)
    · by_cases hk : p.1 = k
      · left
        rw [List.map_cons, ← hk]
        exact List.mem_cons_self _ _
      · right
        simpa [hk] using hacc

/-- A key that `lookupLast` finds is among the object's keys. -/
theorem lookupLast_mem_keys (fs : List (String × Json)) (k : String) (v : Json)
    (h : lookupLast fs k = some v) : k ∈ fs.map Prod.fst := by
  rcases lookup_step k none v fs h with hm | hacc
  · exact hm
  · exact absurd hacc (by simp)

/-- Membership in the missing-fields difference. -/
theorem mem_missing_fields (ks : List String) (f : String) :
    f ∈ missing_fields ks ↔ f ∈ required_fields ∧ f ∉ ks := by
  simp [missing_fields, List.mem_filter]

/-- When all three required keys are present, nothing is missing. -/
theorem missing_fields_nil (ks : List String)
    (h1 : "timestamp" ∈ ks) (h2 : "temperatura" ∈ ks) (h3 : "humedad" ∈ ks) :
    missing_fields ks = [] := by
  have : ∀ f ∈ missing_fields ks, False := by
    intro f hf
    rcases (mem_missing_fields ks f).mp hf with ⟨hfr, hfk⟩
    simp [required_fields] at hfr
    rcases hfr with rfl | rfl | rfl
    · exact hfk h1
    · exact hfk h2
    · exact hfk h3
  cases hm : missing_fields ks with
  | nil => rfl
  | cons a l => exact absurd (hm ▸ List.mem_cons_self a l) (by intro hx; exact this a hx)

/-- On an object whose required fields are present, numeric and in
range, validation reduces to the timestamp parseability check. -/
theorem validate_obj_reduce (fs : List (String × Json)) (t h : Json) (s : String)
    (ht : lookupLast fs "temperatura" = some t)
    (hh : lookupLast fs "humedad" = some h)
    (hts : lookupLast fs "timestamp" = some (.str s))
    (htn : t.isNumeric = true) (hhn : h.isNumeric = true)
    (htr : (-50 : ℚ) ≤ t.toRat ∧ t.toRat ≤ 60)
    (hhr : (0 : ℚ) ≤ h.toRat ∧ h.toRat ≤ 100) :
    validate_message (.obj fs) =
      match fromisoformat (replaceZ s.toList) with
      | some _ => .ok ()
      | none => .error .formatError := by
  have hmt := lookupLast_mem_keys fs _ _ ht
  have hmh := lookupLast_mem_keys fs _ _ hh
  have hmts := lookupLast_mem_keys fs _ _ hts
  have hnil := missing_fields_nil _ hmts hmt hmh
  simp only [validate_message, Json.keysOf, Json.getItem, eb_ok]
  simp [hnil, ht, hh, hts, htn, hhn, htr.1, hhr.1, not_lt.mpr htr.2,
    not_lt.mpr hhr.2, eb_ok, eb_err, ethrow, epure]

/-- C5 amended: validation accepts a timestamp field exactly when, after
replacing every `Z` with `+00:00`, it parses as ISO-8601 (so a trailing
`Z` is accepted as UTC); a parse failure yields the FormatError
`ValueError`; timezone-awareness is not checked, so timezone-naive
timestamps are accepted too. -/
theorem timestamp_validation_is_parseability
    (fs : List (String × Json)) (t h : Json) (s : String)
    (ht : lookupLast fs "temperatura" = some t)
    (hh : lookupLast fs "humedad" = some h)
    (hts : lookupLast fs "timestamp" = some (.str s))
    (htn : t.isNumeric = true) (hhn : h.isNumeric = true)
    (htr : (-50 : ℚ) ≤ t.toRat ∧ t.toRat ≤ 60)
    (hhr : (0 : ℚ) ≤ h.toRat ∧ h.toRat ≤ 100) :
    (∀ dt, fromisoformat (replaceZ s.toList) = some dt →
        validate_message (.obj fs) = .ok ()) ∧
    (fromisoformat (replaceZ s.toList) = none →
        validate_message (.obj fs) = .error .formatError) := by
  have hred := validate_obj_reduce fs t h s ht hh hts htn hhn htr hhr
  constructor
  · intro dt hdt
    rw [hred, hdt]
  · intro hdt
    rw [hred, hdt]

/-- Witness for the C5 amended claim: the timezone-naive timestamp
parses, and the message carrying it validates. -/
theorem timestamp_validation_is_parseability_witness :
    fromisoformat (replaceZ "2024-01-01T12:00:00".toList) =
      some ⟨2024, 1, 1, 12, 0, 0, 0, none⟩ ∧
    validate_message naiveTimestampMsg = .ok () :=
  ⟨rfl,
   (timestamp_validation_is_parseability
      [("timestamp", .str "2024-01-01T12:00:00"),
       ("temperatura", .num (mkRat 51 2)),
       ("humedad", .num (mkRat 301 5))]
      (.num (mkRat 51 2)) (.num (mkRat 301 5)) "2024-01-01T12:00:00"
      rfl rfl rfl rfl rfl ⟨by decide, by decide⟩ ⟨by decide, by decide⟩).1
     ⟨2024, 1, 1, 12, 0, 0, 0, none⟩ rfl⟩

/-- C7: a parsed object missing at least one required field fails with
the SchemaError carrying `missing_fields`, and every missing required
field is named in it, not only the first. -/
theorem schema_error_names_all_missing (fs : List (String × Json)) (f0 : String)
    (hf0r : f0 ∈ required_fields) (hf0 : f0 ∉ fs.map Prod.fst) :
    validate_message (.obj fs) =
      .error (.schemaError (missing_fields (fs.map Prod.fst))) ∧
    ∀ f ∈ required_fields, f ∉ fs.map Prod.fst →
      f ∈ missing_fields (fs.map Prod.fst) := by
  have hne : missing_fields (fs.map Prod.fst) ≠ [] := by
    intro hnil
    have hmem := (mem_missing_fields (fs.map Prod.fst) f0).mpr ⟨hf0r, hf0⟩
    rw [hnil] at hmem
    exact absurd hmem (List.not_mem_nil _)
  constructor
  · simp only [validate_message, Json.keysOf, eb_ok]
    simp [hne, ethrow, eb_err]
  · intro f hfr hfk
    exact (mem_missing_fields (fs.map Prod.fst) f).mpr ⟨hfr, hfk⟩

/-- Witness for C7 at Scenario B (missing `humedad`). -/
theorem schema_error_names_all_missing_witness :
    validate_message scenarioB =
      .error (.schemaError (missing_fields
        ([("timestamp", Json.str "2024-01-01T12:00:00Z"),
          ("temperatura", Json.num (mkRat 51 2))].map Prod.fst))) ∧
    ∀ f ∈ required_fields,
      f ∉ [("timestamp", Json.str "2024-01-01T12:00:00Z"),
           ("temperatura", Json.num (mkRat 51 2))].map Prod.fst →
      f ∈ missing_fields
        ([("timestamp", Json.str "2024-01-01T12:00:00Z"),
          ("temperatura", Json.num (mkRat 51 2))].map Prod.fst) :=
  schema_error_names_all_missing
    [("timestamp", Json.str "2024-01-01T12:00:00Z"),
     ("temperatura", Json.num (mkRat 51 2))]
    "humedad" (by decide) (by decide)

/-- C8: a reading with both numeric fields inside the inclusive ranges
(boundaries included) and a parseable timestamp validates, and the
values bound into the insert statement are exactly the message's own
temperature and humidity with the parsed timestamp. -/
theorem valid_reading_validates_unchanged
    (fs : List (String × Json)) (t h : Json) (s : String) (dt : PyDatetime)
    (ht : lookupLast fs "temperatura" = some t)
    (hh : lookupLast fs "humedad" = some h)
    (hts : lookupLast fs "timestamp" = some (.str s))
    (htn : t.isNumeric = true) (hhn : h.isNumeric = true)
    (htr : (-50 : ℚ) ≤ t.toRat ∧ t.toRat ≤ 60)
    (hhr : (0 : ℚ) ≤ h.toRat ∧ h.toRat ≤ 100)
    (hparse : fromisoformat (replaceZ s.toList) = some dt) :
    validate_message (.obj fs) = .ok () ∧
    reading_of (.obj fs) = .ok ⟨dt, t.toRat, h.toRat⟩ := by
  have hred := validate_obj_reduce fs t h s ht hh hts htn hhn htr hhr
  have hv : validate_message (.obj fs) = .ok () := by rw [hred, hparse]
  have hparse' : fromisoformat (replaceZ s.data) = some dt := hparse
  refine ⟨hv, ?_⟩
  simp [reading_of, hv, eb_ok, Json.getItem, ht, hh, hts, hparse, hparse', epure]

/-- Witness for C8 at the boundary reading (temperature exactly -50,
humidity exactly 100). -/
theorem valid_reading_validates_unchanged_witness :
    validate_message boundaryMsg = .ok () ∧
    reading_of boundaryMsg = .ok ⟨⟨2024, 1, 1, 12, 0, 0, 0, some 0⟩, -50, 100⟩ :=
  valid_reading_validates_unchanged
    [("timestamp", .str "2024-01-01T12:00:00Z"),
     ("temperatura", .num (-50)),
     ("humedad", .num 100)]
    (.num (-50)) (.num 100) "2024-01-01T12:00:00Z" ⟨2024, 1, 1, 12, 0, 0, 0, some 0⟩
    rfl rfl rfl rfl rfl ⟨by decide, by decide⟩ ⟨by decide, by decide⟩ rfl

/-- C6: for a message that parses and validates (i.e. whose reading is
computed), a store connection that is down at insert time raises
`OperationalError`, which triggers exactly one
reconnect-and-reinitialize cycle and then a nack with requeue; nothing
is inserted and the message is redelivered. -/
theorem store_failure_reconnects_and_requeues (data : Json) (r : StoreRecord)
    (hr : reading_of data = .ok r) :
    process_message (.json data) false true = .ok ⟨.nackRequeue, [], 1⟩ := by
  have htry : try_process (.json data) false = .error .operationalError := by
    simp [try_process, json_loads, hr, eb_ok, eb_err, execute_insert]
  unfold process_message
  rw [htry]
  rfl

/-- Witness for C6 at the Scenario A message with the store down. -/
theorem store_failure_reconnects_and_requeues_witness :
    reading_of scenarioA =
      .ok ⟨⟨2024, 1, 1, 12, 0, 0, 0, some 0⟩, mkRat 51 2, mkRat 301 5⟩ ∧
    process_message (.json scenarioA) false true = .ok ⟨.nackRequeue, [], 1⟩ :=
  ⟨rfl, store_failure_reconnects_and_requeues scenarioA
    ⟨⟨2024, 1, 1, 12, 0, 0, 0, some 0⟩, mkRat 51 2, mkRat 301 5⟩ rfl⟩

/-- The retry loop makes at most `remaining` further attempts. -/
theorem retry_from_attempts_le (succeeds : Nat → Bool) (max_retries : Nat) :
    ∀ n a, (retry_from succeeds max_retries n a).attempts ≤ n := by
  intro n
  induction n with
  | zero => intro a; simp [retry_from]
  | succ n ih =>
    intro a
    by_cases hsa : succeeds a = true
    · simp [retry_from, hsa]
    · simp only [retry_from, hsa, if_false, Bool.false_eq_true]
      exact Nat.succ_le_succ (ih (a + 1))

/-- When every remaining attempt fails, the loop exhausts: `RuntimeError`
(result `none`), one attempt per iteration, and a sleep after every
failed attempt except the last (the invariant `a + n = max_retries + 1`
says the window ends exactly at the loop bound). -/
theorem retry_from_all_fail (succeeds : Nat → Bool) (max_retries : Nat) :
    ∀ n a, a + n = max_retries + 1 →
      (∀ i, a ≤ i → i < a + n → succeeds i = false) →
      retry_from succeeds max_retries n a = ⟨none, n, n - 1⟩ := by
  intro n
  induction n with
  | zero => intro a _ _; simp [retry_from]
  | succ n ih =>
    intro a hinv hfail
    have hsa : succeeds a = false := hfail a (Nat.le_refl a) (by omega)
    have hrec := ih (a + 1) (by omega) (fun i h1 h2 => hfail i (by omega) (by omega))
    simp [retry_from, hsa, hrec]
    by_cases hn : n = 0
    · subst hn
      have hlt : ¬ (a < max_retries) := by omega
      simp [hlt]
    · have hlt : a < max_retries := by omega
      simp [hlt]
      omega

/-- When attempt `k` is the first to succeed, the loop returns on
attempt `k` having made `k + 1 - a` attempts and slept after each of the
preceding failed attempts. -/
theorem retry_from_first_success (succeeds : Nat → Bool) (max_retries : Nat) :
    ∀ n a k, a + n = max_retries + 1 → a ≤ k → k < a + n → succeeds k = true →
      (∀ j, a ≤ j → j < k → succeeds j = false) →
      retry_from succeeds max_retries n a = ⟨some k, k + 1 - a, k - a⟩ := by
  intro n
  induction n with
  | zero =>
    intro a k hinv h1 h2 h3 h4
    exfalso
    omega
  | succ n ih =>
    intro a k hinv h1 h2 h3 h4
    by_cases hak : k = a
    · subst hak
      simp [retry_from, h3]
    · have hka : a < k := lt_of_le_of_ne h1 (Ne.symm hak)
      have hsa : succeeds a = false := h4 a (Nat.le_refl a) hka
      have hrec := ih (a + 1) k (by omega) (by omega) (by omega) h3
        (fun j hj1 hj2 => h4 j (by omega) hj2)
      have hlt : a < max_retries := by omega
      simp [retry_from, hsa, hrec, hlt]
      omega

/-- C9: both retry-connect methods are the same bounded loop; it makes
at most `max_retries` attempts; when every attempt in `1..max_retries`
fails it stops with `RuntimeError` after exactly `max_retries` attempts
and `max_retries - 1` sleeps (no sleep after the final failure, no
infinite retry); and when attempt `k` is the first to succeed it returns
immediately after exactly `k` attempts and `k - 1` sleeps. -/
theorem connect_retry_bounded (succeeds : Nat → Bool) (max_retries : Nat) :
    connect_postgres_with_retry succeeds max_retries =
      connect_with_retry succeeds max_retries ∧
    connect_rabbitmq_with_retry succeeds max_retries =
      connect_with_retry succeeds max_retries ∧
    (connect_with_retry succeeds max_retries).attempts ≤ max_retries ∧
    ((∀ i, 1 ≤ i → i ≤ max_retries → succeeds i = false) →
      connect_with_retry succeeds max_retries =
        ⟨none, max_retries, max_retries - 1⟩) ∧
    (∀ k, 1 ≤ k → k ≤ max_retries → succeeds k = true →
      (∀ j, 1 ≤ j → j < k → succeeds j = false) →
      connect_with_retry succeeds max_retries = ⟨some k, k, k - 1⟩) := by
  refine ⟨rfl, rfl, retry_from_attempts_le succeeds max_retries max_retries 1, ?_, ?_⟩
  · intro hall
    exact retry_from_all_fail succeeds max_retries max_retries 1 (by omega)
      (fun i hi1 hi2 => hall i hi1 (by omega))
  · intro k hk1 hk2 hks hfail
    have hres := retry_from_first_success succeeds max_retries max_retries 1 k
      (by omega) hk1 (by omega) hks (fun j hj1 hj2 => hfail j hj1 hj2)
    simpa using hres

/-- Witness for C9 with the default bound and a connection that first
succeeds on attempt 3: three attempts, two sleeps. -/
theorem connect_retry_bounded_witness :
    1 ≤ default_max_retries ∧
    connect_with_retry (fun i => decide (i = 3)) default_max_retries =
      ⟨some 3, 3, 2⟩ :=
  ⟨by decide,
   (connect_retry_bounded (fun i => decide (i = 3))
      default_max_retries).2.2.2.2 3 (by decide) (by decide) (by decide)
     (fun j hj1 hj2 => by
       simp only [decide_eq_false_iff_not]
       omega)⟩
